import Mathlib

/-!
Shallow embedding of the proxy-pool manager of this repository
(`src/modules/proxy_manager/manager.py`, `src/modules/proxy_manager/tester.py`,
`src/db/crud.py`), together with theorems settling the frozen claims about it.

Conventions of the embedding:
* Database rows (`proxies` table) become a Lean structure `Proxy`; the database
  session becomes an explicit `Db` value (list of rows plus the next id the
  store would assign).  Wall-clock fields (`last_tested`, `created_at`,
  `updated_at`) are not tracked: no claim mentions them and they never feed
  back into control flow.
* Credential-at-rest encryption is external (`cryptography.fernet`); it is
  embedded as an opaque pair of functions `Enc` passed explicitly, exactly as
  `encryption_manager.encrypt` / `.decrypt` are called in the source.
  `decrypt` returns `Option` because `_proxy_to_config` catches decryption
  failures and stores `None`.
* The network is external; one probe attempt against one endpoint is embedded
  as a function `ProbeEnv.attempt` from the endpoint URL to the observable
  outcome of `session.get` (HTTP status + body readability, or the exception
  class raised), which is exactly the information `_test_proxy_endpoint`
  branches on.
* Python `int(...)` on the port field is embedded by `pyInt` (optional sign,
  digits, single underscores between digits, surrounding whitespace).
* Python float division `fail_count / total` compared against `0.5` is
  embedded over `ℚ`; for the count magnitudes reachable here (far below
  `2^52`) the float comparison agrees with the exact rational one.
-/

namespace PM

/-- Row of the `proxies` table (`src/db/models.py`, class `Proxy`). -/
structure Proxy where
  id : Nat
  host : String
  port : Int
  username : Option String
  password_encrypted : Option String
  protocol : String
  is_active : Bool
  latency_ms : Option Nat
  success_count : Nat
  fail_count : Nat
  deriving Repr, DecidableEq

/-- Placeholder row used only as the default of `List.getD` at indices that
are proved in bounds. -/
def dummyProxy : Proxy :=
  { id := 0, host := "", port := 0, username := none, password_encrypted := none,
    protocol := "socks5", is_active := false, latency_ms := none,
    success_count := 0, fail_count := 0 }

/-- Pydantic `ProxyConfig` (`src/modules/proxy_manager/models.py`). -/
structure ProxyConfig where
  id : Option Nat
  host : String
  port : Int
  username : Option String
  password : Option String
  protocol : String
  latency_ms : Option Nat
  is_active : Bool
  deriving Repr, DecidableEq

/-- Pydantic `ProxyTestResult` (`src/modules/proxy_manager/models.py`); the
wall-clock `timestamp` field is not tracked. -/
structure ProxyTestResult where
  proxy_id : Nat
  success : Bool
  latency_ms : Option Nat
  error_message : Option String
  endpoint : String
  deriving Repr, DecidableEq

/-- The opaque credential vault: `encryption_manager.encrypt` / `.decrypt`
(`src/core/security.py`, external to the proxy subsystem). -/
structure Enc where
  encrypt : String → String
  decrypt : String → Option String

/-- Database state backing the proxy store: current rows plus the id the
store assigns to the next inserted row. -/
structure Db where
  proxies : List Proxy
  nextId : Nat
  deriving Repr, DecidableEq

/-- `crud.get_proxy`: select by primary key. -/
def getProxy (db : Db) (id : Nat) : Option Proxy :=
  db.proxies.find? (fun r => r.id == id)

/-- `crud.get_proxy_by_host_port`: select by the `(host, port)` pair. -/
def getProxyByHostPort (db : Db) (host : String) (port : Int) : Option Proxy :=
  db.proxies.find? (fun r => r.host == host && r.port == port)

/-- `crud.create_proxy`: insert a fresh row (defaults from the model:
`is_active` as passed, zero counters, no latency). -/
def createProxy (db : Db) (host : String) (port : Int) (username : Option String)
    (password_encrypted : Option String) (protocol : String) (is_active : Bool) :
    Proxy × Db :=
  let p : Proxy :=
    { id := db.nextId, host := host, port := port, username := username,
      password_encrypted := password_encrypted, protocol := protocol,
      is_active := is_active, latency_ms := none,
      success_count := 0, fail_count := 0 }
  (p, { proxies := db.proxies ++ [p], nextId := db.nextId + 1 })

/-- Apply an update to every row with the given id (ids are unique in the
store, so this is the single-row UPDATE of the source). -/
def updateById (db : Db) (id : Nat) (g : Proxy → Proxy) : Db :=
  { db with proxies := db.proxies.map (fun r => if r.id == id then g r else r) }

/-- The counter/latency mutation performed by `crud.update_proxy_stats` on the
fetched row: increment one counter, overwrite latency only when a measurement
is present. -/
def applyStats (success : Bool) (lat : Option Nat) (r : Proxy) : Proxy :=
  let r1 := if success then { r with success_count := r.success_count + 1 }
            else { r with fail_count := r.fail_count + 1 }
  match lat with
  | none => r1
  | some l => { r1 with latency_ms := some l }

/-- `crud.update_proxy_stats`: `none` models the `RecordNotFoundError` raised
when the id is absent. -/
def updateProxyStats (db : Db) (id : Nat) (success : Bool) (lat : Option Nat) :
    Option Db :=
  match getProxy db id with
  | none => none
  | some _ => some (updateById db id (applyStats success lat))

/-- `crud.update_proxy(db, id, is_active=b)`: the only field update the proxy
manager performs.  Every call site has just fetched the row, so the
`RecordNotFoundError` branch of the source is unreachable and the update is
embedded as total. -/
def setActive (db : Db) (id : Nat) (b : Bool) : Db :=
  updateById db id (fun r => { r with is_active := b })

/-- Success-rate sort key of `crud.get_active_proxies`:
`success_count / NULLIF(success_count + fail_count, 0)`; `none` is SQL NULL. -/
def rateKey (r : Proxy) : Option ℚ :=
  if r.success_count + r.fail_count = 0 then none
  else some ((r.success_count : ℚ) / ((r.success_count + r.fail_count : Nat) : ℚ))

/-- Secondary key `latency_ms ASC` of `crud.get_active_proxies`; under
PostgreSQL defaults NULL sorts last in ascending order. -/
def latLE (a b : Proxy) : Bool :=
  match a.latency_ms, b.latency_ms with
  | none, none => true
  | none, some _ => false
  | some _, none => true
  | some x, some y => decide (x ≤ y)

/-- Whole ORDER BY of `crud.get_active_proxies`: success rate descending
(NULL first, the PostgreSQL default for DESC), then latency ascending. -/
def perfLE (a b : Proxy) : Bool :=
  match rateKey a, rateKey b with
  | none, none => latLE a b
  | none, some _ => true
  | some _, none => false
  | some x, some y => if y < x then true else if x < y then false else latLE a b

/-- Stable insertion step for the ORDER BY embedding. -/
def insertPerf (p : Proxy) : List Proxy → List Proxy
  | [] => [p]
  | q :: qs => if perfLE p q then p :: q :: qs else q :: insertPerf p qs

/-- Stable sort realising the ORDER BY of `crud.get_active_proxies`; ties are
kept in stored order, fixing one deterministic row order for the embedding. -/
def sortPerf (l : List Proxy) : List Proxy := l.foldr insertPerf []

/-- `crud.get_active_proxies`: active rows, performance-ordered, LIMIT. -/
def getActiveProxies (db : Db) (limit : Nat) : List Proxy :=
  (sortPerf (db.proxies.filter (fun r => r.is_active))).take limit

/-- Python `str.strip()`: drop leading and trailing whitespace. -/
def pyStrip (l : List Char) : List Char :=
  ((l.dropWhile Char.isWhitespace).reverse.dropWhile Char.isWhitespace).reverse

/-- Python `str.split(":")`: split on every colon, keeping empty fields;
the empty string yields one empty field. -/
def pySplitColon : List Char → List (List Char)
  | [] => [[]]
  | c :: cs =>
    if c = ':' then [] :: pySplitColon cs
    else
      match pySplitColon cs with
      | [] => [[c]]
      | f :: rest => (c :: f) :: rest

/-- Digit run of a Python integer literal after the first digit: single
underscores are allowed between digits only. -/
def pyDigitsAux : Nat → List Char → Option Nat
  | acc, [] => some acc
  | acc, '_' :: cs =>
    match cs with
    | [] => none
    | c :: cs2 =>
      if c.isDigit then pyDigitsAux (acc * 10 + (c.toNat - 48)) cs2 else none
  | acc, c :: cs =>
    if c.isDigit then pyDigitsAux (acc * 10 + (c.toNat - 48)) cs else none

/-- Unsigned digit run of a Python integer literal: must start with a digit. -/
def pyDigits : List Char → Option Nat
  | [] => none
  | '_' :: _ => none
  | c :: cs => if c.isDigit then pyDigitsAux (c.toNat - 48) cs else none

/-- Python `int(s)` on the strings reachable here: optional surrounding
whitespace, optional sign, decimal digits with single underscores between
digits; `none` models the `ValueError`. -/
def pyInt (s : String) : Option Int :=
  match pyStrip s.data with
  | '+' :: rest => (pyDigits rest).map (fun n => (n : Int))
  | '-' :: rest => (pyDigits rest).map (fun n => -(n : Int))
  | cs => (pyDigits cs).map (fun n => (n : Int))

/-- `InvalidProxyFormat` payload: the offending string and the reason
(`src/core/exceptions.py`). -/
structure InvalidFmt where
  proxyString : String
  reason : String
  deriving Repr, DecidableEq

/-- Python truthiness of `parts[i].strip()`: empty string becomes `None`
(used for the optional username/password fields of `add_proxy`). -/
def strOptOfTrim (cs : List Char) : Option String :=
  if pyStrip cs = [] then none else some ⟨pyStrip cs⟩

/-- `ProxyManager._proxy_to_config`: decrypt the stored password (failures
caught and turned into `None`) and copy the remaining fields. -/
def proxyToConfig (enc : Enc) (p : Proxy) : ProxyConfig :=
  { id := some p.id, host := p.host, port := p.port, username := p.username,
    password := p.password_encrypted.bind enc.decrypt,
    protocol := p.protocol, latency_ms := p.latency_ms, is_active := p.is_active }

/-- Validation, lookup and insert tail of `ProxyManager.add_proxy`, after the
fields have been split and the credentials prepared (source order: host
emptiness, port range, duplicate `(host, port)` check, insert with protocol
`socks5`). -/
def addProxyChecked (enc : Enc) (db : Db) (s : String) (host : String) (port : Int)
    (username : Option String) (password_encrypted : Option String) :
    Except InvalidFmt (ProxyConfig × Db) :=
  if host = "" then .error ⟨s, "Host cannot be empty"⟩
  else if port < 1 || 65535 < port then
    .error ⟨s, "Port must be between 1 and 65535"⟩
  else
    match getProxyByHostPort db host port with
    | some existing => .ok (proxyToConfig enc existing, db)
    | none =>
      .ok (proxyToConfig enc (createProxy db host port username password_encrypted "socks5" true).1,
           (createProxy db host port username password_encrypted "socks5" true).2)

/-- `ProxyManager.add_proxy`: split on `:`, parse the port, prepare optional
credentials (encrypting the password), then validate and insert.  The
`.error` results model the `InvalidProxyFormat` exceptions of the source. -/
def addProxy (enc : Enc) (db : Db) (s : String) :
    Except InvalidFmt (ProxyConfig × Db) :=
  if (pySplitColon (pyStrip s.data)).length < 2 then
    .error ⟨s, "Minimum format is HOST:PORT"⟩
  else
    match pyInt ⟨pyStrip ((pySplitColon (pyStrip s.data)).getD 1 [])⟩ with
    | none => .error ⟨s, "Port must be a valid integer"⟩
    | some port =>
      if 4 ≤ (pySplitColon (pyStrip s.data)).length then
        addProxyChecked enc db s ⟨pyStrip ((pySplitColon (pyStrip s.data)).getD 0 [])⟩ port
          (strOptOfTrim ((pySplitColon (pyStrip s.data)).getD 2 []))
          ((strOptOfTrim ((pySplitColon (pyStrip s.data)).getD 3 [])).map enc.encrypt)
      else if (pySplitColon (pyStrip s.data)).length = 3 then
        .error ⟨s, "If username provided, password is also required"⟩
      else
        addProxyChecked enc db s ⟨pyStrip ((pySplitColon (pyStrip s.data)).getD 0 [])⟩ port
          none none

/-- Rotation state of a `ProxyManager` instance: the backing store plus the
mutable `_rotation_index`. -/
structure ManagerState where
  db : Db
  rotationIndex : Nat
  deriving Repr, DecidableEq

/-- `ProxyManager.get_next_proxy`: read the active rows (LIMIT 100), return
`None` when there are none, otherwise pick index `_rotation_index % len` and
store `(_rotation_index + 1) % len`. -/
def getNextProxy (enc : Enc) (st : ManagerState) :
    Option ProxyConfig × ManagerState :=
  if (getActiveProxies st.db 100).isEmpty then (none, st)
  else
    (some (proxyToConfig enc ((getActiveProxies st.db 100).getD
        (st.rotationIndex % (getActiveProxies st.db 100).length) dummyProxy)),
     { st with rotationIndex :=
         (st.rotationIndex + 1) % (getActiveProxies st.db 100).length })

/-- `ProxyManager._check_failure_threshold`: with fewer than 10 samples do
nothing; otherwise quarantine when `fail_count >= threshold` and the failure
rate strictly exceeds one half. -/
def checkFailureThreshold (maxFT : Nat) (db : Db) (p : Proxy) : Db :=
  if p.success_count + p.fail_count < 10 then db
  else if maxFT ≤ p.fail_count then
    if ((p.fail_count : ℚ) / ((p.success_count + p.fail_count : Nat) : ℚ)) > 1 / 2 then
      setActive db p.id false
    else db
  else db

/-- `ProxyManager.mark_proxy_success`: record a success, then reactivate the
row if it was disabled.  A missing id raises inside `update_proxy_stats`,
is swallowed by the method's `except`, and leaves the store unchanged. -/
def markProxySuccess (db : Db) (id : Nat) : Db :=
  match updateProxyStats db id true none with
  | none => db
  | some db1 =>
    match getProxy db1 id with
    | some p => if p.is_active then db1 else setActive db1 id true
    | none => db1

/-- `ProxyManager.mark_proxy_failure`: record a failure, then run the failure
threshold policy on the updated row. -/
def markProxyFailure (maxFT : Nat) (db : Db) (id : Nat) : Db :=
  match updateProxyStats db id false none with
  | none => db
  | some db1 =>
    match getProxy db1 id with
    | some p => checkFailureThreshold maxFT db1 p
    | none => db1

/-- Observable outcome of one `session.get` through the proxy against one
endpoint: an HTTP response (status, elapsed ms, whether the body read
succeeds), or the exception class raised at the network layer. -/
inductive AttemptOutcome where
  | resp (status : Nat) (latencyMs : Nat) (bodyOk : Bool)
  | timeout
  | connError (msg : String)
  | clientError (msg : String)
  | unexpected (msg : String)
  deriving Repr, DecidableEq

/-- The external network, fixed for the duration of one probe: what one GET
against each endpoint URL observes. -/
structure ProbeEnv where
  attempt : String → AttemptOutcome

/-- Typed probe errors raised by `_test_proxy_endpoint`
(`ProxyTimeoutError`, `ProxyConnectionError`). -/
inductive ProbeErr where
  | timeoutErr (host : String) (timeout : Nat)
  | connErr (host : String) (port : Int) (msg : String)
  deriving Repr, DecidableEq

/-- `tester.TEST_ENDPOINTS`. -/
def TEST_ENDPOINTS : List String :=
  ["http://httpbin.org/ip", "https://api.ipify.org?format=json",
   "http://ip-api.com/json"]

/-- `tester._test_proxy_endpoint`: HTTP 200 with readable body is success
with the measured latency; other statuses return a failure result carrying
the measured latency; timeouts and proxy connection errors re-raise typed
exceptions; client and unexpected errors (including a failing body read,
which the generic `except` catches) return failure results without
latency. -/
def testProxyEndpoint (env : ProbeEnv) (cfg : ProxyConfig) (endpoint : String) :
    Except ProbeErr ProxyTestResult :=
  match env.attempt endpoint with
  | .resp status lat bodyOk =>
    if status = 200 then
      if bodyOk then
        .ok { proxy_id := cfg.id.getD 0, success := true, latency_ms := some lat,
              error_message := none, endpoint := endpoint }
      else
        .ok { proxy_id := cfg.id.getD 0, success := false, latency_ms := none,
              error_message := some "Unexpected error: body read failed",
              endpoint := endpoint }
    else
      .ok { proxy_id := cfg.id.getD 0, success := false, latency_ms := some lat,
            error_message := some ("HTTP " ++ toString status),
            endpoint := endpoint }
  | .timeout => .error (.timeoutErr cfg.host 10)
  | .connError m => .error (.connErr cfg.host cfg.port m)
  | .clientError m =>
    .ok { proxy_id := cfg.id.getD 0, success := false, latency_ms := none,
          error_message := some ("Client error: " ++ m), endpoint := endpoint }
  | .unexpected m =>
    .ok { proxy_id := cfg.id.getD 0, success := false, latency_ms := none,
          error_message := some ("Unexpected error: " ++ m), endpoint := endpoint }

/-- Endpoint loop of `tester.test_proxy`: return the first successful result;
on an exception, or on a returned non-success result, fall through to the
next endpoint. -/
def testProxyLoop (env : ProbeEnv) (cfg : ProxyConfig) :
    List String → Option ProxyTestResult
  | [] => none
  | e :: rest =>
    match testProxyEndpoint env cfg e with
    | .ok r => if r.success then some r else testProxyLoop env cfg rest
    | .error _ => testProxyLoop env cfg rest

/-- `tester.test_proxy`: try the endpoint list (the caller's single endpoint,
or `TEST_ENDPOINTS`); if no endpoint succeeds, return the aggregate failure
result attributed to the first endpoint. -/
def testProxy (env : ProbeEnv) (cfg : ProxyConfig)
    (testEndpoint : Option String := none) : ProxyTestResult :=
  let endpoints := match testEndpoint with
    | some e => [e]
    | none => TEST_ENDPOINTS
  match testProxyLoop env cfg endpoints with
  | some r => r
  | none =>
    { proxy_id := cfg.id.getD 0, success := false, latency_ms := none,
      error_message := some ("All test endpoints failed for proxy " ++
        cfg.host ++ ":" ++ toString cfg.port),
      endpoint := endpoints.headD "" }

/-- `tester.test_multiple_proxies`: every config is probed and contributes
exactly one result, in order (`asyncio.gather` preserves order; the
semaphore bounds concurrency but does not change the result list). -/
def testMultipleProxies (env : ProbeEnv) (cfgs : List ProxyConfig) :
    List ProxyTestResult :=
  cfgs.map (fun c => testProxy env c)

/-- `tester._build_proxy_url`: credentials are embedded only when both are
present and non-empty (Python truthiness). -/
def buildProxyUrl (cfg : ProxyConfig) : String :=
  if (cfg.username.getD "") ≠ "" && (cfg.password.getD "") ≠ "" then
    cfg.protocol ++ "://" ++ cfg.username.getD "" ++ ":" ++ cfg.password.getD "" ++
      "@" ++ cfg.host ++ ":" ++ toString cfg.port
  else
    cfg.protocol ++ "://" ++ cfg.host ++ ":" ++ toString cfg.port

/-- Manager-level errors of `ProxyManager.test_proxy`
(`RecordNotFoundError`, `ProxyException`). -/
inductive MgrErr where
  | recordNotFound
  | proxyError
  deriving Repr, DecidableEq

/-- `ProxyManager.test_proxy(proxy_id)`: fetch the row, probe it, persist the
stats, and run the failure-threshold policy only when the probe failed (the
policy reads the row as updated by `update_proxy_stats`, which mutates the
same identity-mapped ORM object). -/
def managerTestProxy (enc : Enc) (env : ProbeEnv) (maxFT : Nat) (db : Db)
    (proxyId : Nat) : Except MgrErr (ProxyTestResult × Db) :=
  match getProxy db proxyId with
  | none => .error .recordNotFound
  | some p =>
    let result := testProxy env (proxyToConfig enc p)
    match updateProxyStats db proxyId result.success result.latency_ms with
    | none => .error .proxyError
    | some db1 =>
      if result.success then .ok (result, db1)
      else
        match getProxy db1 proxyId with
        | some p1 => .ok (result, checkFailureThreshold maxFT db1 p1)
        | none => .ok (result, db1)

/-! ## Concrete fixtures used by witnesses and counterexamples -/

/-- Concrete invertible vault used to instantiate `Enc` in closed statements:
prepend a marker on encrypt, drop it on decrypt. -/
def vaultEnc : Enc :=
  { encrypt := fun s => "!" ++ s, decrypt := fun s => some (s.drop 1) }

/-- Empty store. -/
def emptyDb : Db := { proxies := [], nextId := 1 }

/-- A generic stored row used by fixtures. -/
def rowA : Proxy :=
  { id := 1, host := "p1.example", port := 1080, username := none,
    password_encrypted := none, protocol := "socks5", is_active := true,
    latency_ms := none, success_count := 1, fail_count := 1 }

/-- Default results used only as `List.getD` fallbacks in statements. -/
def dummyResult : ProxyTestResult :=
  { proxy_id := 0, success := false, latency_ms := none,
    error_message := none, endpoint := "" }

/-- Default config used only as a `List.getD` fallback in statements. -/
def dummyConfig : ProxyConfig :=
  { id := none, host := "", port := 0, username := none, password := none,
    protocol := "socks5", latency_ms := none, is_active := false }

/-- Store holding a single quarantined proxy: the active set is empty. -/
def dbAllQuarantined : Db :=
  { proxies := [{ rowA with is_active := false }], nextId := 2 }

/-- A stored row with credentials, used to exercise the duplicate-add path. -/
def rec8 : Proxy :=
  { id := 1, host := "h", port := 1, username := some "u",
    password_encrypted := some "!pw", protocol := "socks5", is_active := true,
    latency_ms := none, success_count := 3, fail_count := 2 }

/-- Acceptance predicate asserted by the (amended) claim C3, written from the
claim's words for comparison with `addProxy`: exactly 2 or at least 4
colon-delimited fields, a port that parses as an integer in `[1, 65535]`,
and a non-empty host. -/
def addAcceptsSpec (s : String) : Bool :=
  ((pySplitColon (pyStrip s.data)).length == 2 ||
      decide (4 ≤ (pySplitColon (pyStrip s.data)).length)) &&
  (match pyInt ⟨pyStrip ((pySplitColon (pyStrip s.data)).getD 1 [])⟩ with
   | some p => decide (1 ≤ p) && decide (p ≤ 65535)
   | none => false) &&
  !((⟨pyStrip ((pySplitColon (pyStrip s.data)).getD 0 [])⟩ : String) == "")

/-- Network fixture for the probe counterexample: the first default endpoint
answers HTTP 403, the second answers HTTP 200 with a readable body. -/
def cexEnv : ProbeEnv :=
  ⟨fun e =>
    if e = "http://httpbin.org/ip" then .resp 403 40 true
    else if e = "https://api.ipify.org?format=json" then .resp 200 50 true
    else .timeout⟩

/-- Network fixture on which every endpoint fails (typed errors and a client
error). -/
def failEnv : ProbeEnv :=
  ⟨fun e =>
    if e = "http://httpbin.org/ip" then .timeout
    else if e = "https://api.ipify.org?format=json" then .connError "refused"
    else .clientError "bad proxy"⟩

/-- A free-standing config used by the tester fixtures. -/
def cfg7 : ProxyConfig :=
  { id := some 7, host := "h", port := 1080, username := none, password := none,
    protocol := "socks5", latency_ms := none, is_active := true }

/-- Insertion step of the id-ascending order asserted by claim C6. -/
def insertById (p : Proxy) : List Proxy → List Proxy
  | [] => [p]
  | q :: qs => if p.id ≤ q.id then p :: q :: qs else q :: insertById p qs

/-- Id-ascending sort asserted by claim C6 (claim-side definition, for
comparison with the embedded `getActiveProxies` order). -/
def sortById (l : List Proxy) : List Proxy := l.foldr insertById []

/-- The id of the proxy that `next()` would return under the claim's asserted
order: active records ordered by id ascending, indexed at
`cursor mod active_count` (claim-side definition, for comparison). -/
def nextActiveIdSpec (st : ManagerState) : Option Nat :=
  if (sortById (st.db.proxies.filter (fun r => r.is_active))).isEmpty then none
  else some (((sortById (st.db.proxies.filter (fun r => r.is_active))).getD
    (st.rotationIndex % (sortById (st.db.proxies.filter (fun r => r.is_active))).length)
    dummyProxy).id)

/-- Iterate `get_next_proxy`, collecting the returned configs. -/
def iterateNext (enc : Enc) : ManagerState → Nat → List (Option ProxyConfig)
  | _, 0 => []
  | st, n + 1 => (getNextProxy enc st).1 :: iterateNext enc (getNextProxy enc st).2 n

/-- Active row with success rate 1/2 (1 success, 1 failure). -/
def rowHalfRate : Proxy :=
  { id := 1, host := "a", port := 1, username := none, password_encrypted := none,
    protocol := "socks5", is_active := true, latency_ms := none,
    success_count := 1, fail_count := 1 }

/-- Active row with success rate 1 (1 success, 0 failures) and a larger id. -/
def rowFullRate : Proxy :=
  { id := 2, host := "b", port := 2, username := none, password_encrypted := none,
    protocol := "socks5", is_active := true, latency_ms := none,
    success_count := 1, fail_count := 0 }

/-- Manager state over the two-row store above, cursor at 0. -/
def stTwoRows : ManagerState := ⟨⟨[rowHalfRate, rowFullRate], 3⟩, 0⟩

/-! ## Store helper lemmas -/

theorem find_map_update (l : List Proxy) (id : Nat) (g : Proxy → Proxy)
    (hg : ∀ r, (g r).id = r.id) :
    (l.map (fun r => if r.id == id then g r else r)).find? (fun r => r.id == id)
      = (l.find? (fun r => r.id == id)).map g := by
  induction l with
  | nil => rfl
  | cons a l ih =>
    by_cases h : (a.id == id) = true
    · have hga : (((g a).id == id) = true) := by rw [hg]; exact h
      rw [List.map_cons, if_pos h]
      rw [@List.find?_cons_of_pos _ (fun r => r.id == id) (g a)
            (l.map (fun r => if (r.id == id) = true then g r else r)) hga]
      rw [@List.find?_cons_of_pos _ (fun r => r.id == id) a l h]
      rfl
    · rw [List.map_cons, if_neg h]
      rw [@List.find?_cons_of_neg _ (fun r => r.id == id) a
            (l.map (fun r => if (r.id == id) = true then g r else r)) h]
      rw [@List.find?_cons_of_neg _ (fun r => r.id == id) a l h]
      exact ih

theorem getProxy_updateById (db : Db) (id : Nat) (g : Proxy → Proxy)
    (hg : ∀ r, (g r).id = r.id) :
    getProxy (updateById db id g) id = (getProxy db id).map g := by
  unfold getProxy updateById
  exact find_map_update db.proxies id g hg

/-- Bridge between the embedded float comparison `fail / total > 0.5` and a
kernel-computable inequality on the counters. -/
theorem half_lt_div (f t : Nat) (ht : 0 < t) :
    ((f : ℚ) / ((t : Nat) : ℚ) > 1 / 2) ↔ t < 2 * f := by
  rw [gt_iff_lt, div_lt_div_iff₀ (by norm_num) (by exact_mod_cast ht), one_mul]
  rw [show ((f : ℚ) * 2) = ((2 * f : Nat) : ℚ) by push_cast; ring]
  exact Nat.cast_lt

theorem applyStats_id (success : Bool) (lat : Option Nat) (r : Proxy) :
    (applyStats success lat r).id = r.id := by
  unfold applyStats
  cases success <;> cases lat <;> rfl

theorem setActive_getProxy (db : Db) (id : Nat) (b : Bool) :
    getProxy (setActive db id b) id =
      (getProxy db id).map (fun r => { r with is_active := b }) := by
  unfold setActive
  exact getProxy_updateById db id _ (fun r => rfl)

/-! ## C4: behaviour of `next()` on an empty active pool -/

/-- C4 counterexample: with zero active proxies (one stored row, quarantined),
`get_next_proxy` returns the sentinel `None` and leaves the state unchanged —
it does not raise; indeed no `EmptyPoolError` exists anywhere in the code, so
the embedded result type has no error to signal. -/
theorem C4_counterexample :
    getNextProxy vaultEnc ⟨dbAllQuarantined, 0⟩ = (none, ⟨dbAllQuarantined, 0⟩) := by
  rfl

/-- C4 (amended): when the active set is empty, `next()` returns the sentinel
`None` (not an exception); as soon as the active set is non-empty again the
same call returns a proxy configuration. -/
theorem C4_amended (enc : Enc) (st : ManagerState) :
    (getActiveProxies st.db 100 = [] → (getNextProxy enc st).1 = none) ∧
    (getActiveProxies st.db 100 ≠ [] →
      ∃ cfg, (getNextProxy enc st).1 = some cfg) := by
  constructor
  · intro h
    unfold getNextProxy
    rw [h]
    rfl
  · intro h
    unfold getNextProxy
    rw [if_neg (by simpa [List.isEmpty_iff] using h)]
    exact ⟨_, rfl⟩

/-- C4 witness: with one active proxy stored, `next()` yields a config. -/
theorem C4_witness :
    ∃ cfg, (getNextProxy vaultEnc ⟨⟨[rowA], 2⟩, 0⟩).1 = some cfg :=
  (C4_amended vaultEnc ⟨⟨[rowA], 2⟩, 0⟩).2 (by decide)

/-! ## C7: `markSuccess` reactivates regardless of counter history -/

/-- C7: one `mark_proxy_success` call on a quarantined row increments the
success counter and flips `is_active` back to true, whatever the counters
were beforehand. -/
theorem C7_markSuccess_reactivates (db : Db) (id : Nat) (rec : Proxy)
    (hfind : getProxy db id = some rec) (hinact : rec.is_active = false) :
    getProxy (markProxySuccess db id) id =
      some { rec with success_count := rec.success_count + 1, is_active := true } := by
  obtain ⟨rid, rhost, rport, ru, rpe, rproto, ract, rlat, rsc, rfc⟩ := rec
  subst hinact
  have hrec : applyStats true none ⟨rid, rhost, rport, ru, rpe, rproto, false, rlat, rsc, rfc⟩
      = ⟨rid, rhost, rport, ru, rpe, rproto, false, rlat, rsc + 1, rfc⟩ := by
    unfold applyStats
    rfl
  have hupd : getProxy (updateById db id (applyStats true none)) id
      = some ⟨rid, rhost, rport, ru, rpe, rproto, false, rlat, rsc + 1, rfc⟩ := by
    rw [getProxy_updateById db id _ (applyStats_id true none), hfind]
    simp [hrec]
  have h1 : updateProxyStats db id true none = some (updateById db id (applyStats true none)) := by
    unfold updateProxyStats
    rw [hfind]
  unfold markProxySuccess
  rw [h1]
  simp only [hupd]
  rw [if_neg (show ¬(false = true) by simp)]
  rw [setActive_getProxy, hupd]
  rfl

/-- C7 witness: a quarantined row with heavy failure history (2 successes,
40 failures) is reactivated by a single `mark_proxy_success`. -/
theorem C7_witness :
    getProxy (markProxySuccess
        ⟨[{ rowA with is_active := false, success_count := 2, fail_count := 40 }], 2⟩ 1) 1 =
      some { rowA with is_active := true, success_count := 3, fail_count := 40 } := by
  have h := C7_markSuccess_reactivates
      ⟨[{ rowA with is_active := false, success_count := 2, fail_count := 40 }], 2⟩ 1
      { rowA with is_active := false, success_count := 2, fail_count := 40 }
      (by rfl) (by rfl)
  simpa using h

/-! ## C1: when the failure-threshold policy runs and what it does -/

/-- C1 counterexample: the claim requires that after every probe folded by
`markSuccess` the record be quarantined exactly when
`total >= 10 ∧ fail_count >= 5 ∧ fail_count/total > 0.5`.  Take a record with
3 successes and 7 failures and fold one `mark_proxy_success` into it: the
resulting counters (4 successes, 7 failures) satisfy the quarantine condition
(total 11 >= 10, fail 7 >= 5, 7/11 > 1/2), yet the record stays active —
the code runs `_check_failure_threshold` only after failed probes. -/
theorem C1_counterexample :
    getProxy (markProxySuccess ⟨[{ rowA with success_count := 3, fail_count := 7 }], 2⟩ 1) 1 =
      some { rowA with success_count := 4, fail_count := 7 } ∧
    10 ≤ 4 + 7 ∧ 5 ≤ 7 ∧ ((7 : Nat) : ℚ) / ((4 + 7 : Nat) : ℚ) > 1 / 2 :=
  ⟨by rfl, by decide, by decide, (half_lt_div 7 (4 + 7) (by decide)).mpr (by decide)⟩

/-- C1 (amended): the failure-threshold policy runs only after failed probes.
After `mark_proxy_failure` on a stored record the persisted row carries
`fail_count + 1` and is quarantined exactly when, on the updated counters,
`total >= 10 ∧ fail_count >= 5 ∧ fail_count/total > 1/2` (default threshold
5); with `total < 10` the active flag is unchanged.  After
`mark_proxy_success` the row is always active afterwards (success probes
never quarantine; `markSuccess` reactivates). -/
theorem C1_amended :
    (∀ (db : Db) (pid : Nat) (rec : Proxy), getProxy db pid = some rec →
      getProxy (markProxyFailure 5 db pid) pid =
        some { rec with
          fail_count := rec.fail_count + 1,
          is_active :=
            if 10 ≤ rec.success_count + (rec.fail_count + 1) ∧
               5 ≤ rec.fail_count + 1 ∧
               ((rec.fail_count + 1 : Nat) : ℚ) /
                 ((rec.success_count + (rec.fail_count + 1) : Nat) : ℚ) > 1 / 2
            then false else rec.is_active }) ∧
    (∀ (db : Db) (pid : Nat) (rec : Proxy), getProxy db pid = some rec →
      (getProxy (markProxySuccess db pid) pid).map (fun r => r.is_active) = some true) := by
  constructor
  · intro db pid rec hfind
    obtain ⟨rid, rhost, rport, ru, rpe, rproto, ract, rlat, rsc, rfc⟩ := rec
    have hid : rid = pid := by
      have h' : db.proxies.find? (fun r => r.id == pid)
          = some ⟨rid, rhost, rport, ru, rpe, rproto, ract, rlat, rsc, rfc⟩ := hfind
      have h2 := List.find?_some h'
      simp only [beq_iff_eq] at h2
      exact h2
    subst hid
    have hrec : applyStats false none ⟨rid, rhost, rport, ru, rpe, rproto, ract, rlat, rsc, rfc⟩
        = ⟨rid, rhost, rport, ru, rpe, rproto, ract, rlat, rsc, rfc + 1⟩ := by
      unfold applyStats
      rfl
    have h1 : updateProxyStats db rid false none
        = some (updateById db rid (applyStats false none)) := by
      unfold updateProxyStats
      rw [hfind]
    have hupd : getProxy (updateById db rid (applyStats false none)) rid
        = some ⟨rid, rhost, rport, ru, rpe, rproto, ract, rlat, rsc, rfc + 1⟩ := by
      rw [getProxy_updateById db rid _ (applyStats_id false none), hfind]
      simp [hrec]
    unfold markProxyFailure
    rw [h1]
    simp only [hupd]
    unfold checkFailureThreshold
    by_cases hTot : rsc + (rfc + 1) < 10
    · rw [if_pos hTot, hupd, if_neg (fun hC => absurd hC.1 (by omega))]
    · rw [if_neg hTot]
      by_cases hFt : 5 ≤ rfc + 1
      · rw [if_pos hFt]
        by_cases hRate :
            ((rfc + 1 : Nat) : ℚ) / ((rsc + (rfc + 1) : Nat) : ℚ) > 1 / 2
        · rw [if_pos hRate, setActive_getProxy, hupd,
            if_pos ⟨by omega, hFt, hRate⟩]
          rfl
        · rw [if_neg hRate, hupd, if_neg (fun hC => hRate hC.2.2)]
      · rw [if_neg hFt, hupd, if_neg (fun hC => hFt hC.2.1)]
  · intro db pid rec hfind
    obtain ⟨rid, rhost, rport, ru, rpe, rproto, ract, rlat, rsc, rfc⟩ := rec
    have hrec : applyStats true none ⟨rid, rhost, rport, ru, rpe, rproto, ract, rlat, rsc, rfc⟩
        = ⟨rid, rhost, rport, ru, rpe, rproto, ract, rlat, rsc + 1, rfc⟩ := by
      unfold applyStats
      rfl
    have h1 : updateProxyStats db pid true none
        = some (updateById db pid (applyStats true none)) := by
      unfold updateProxyStats
      rw [hfind]
    have hupd : getProxy (updateById db pid (applyStats true none)) pid
        = some ⟨rid, rhost, rport, ru, rpe, rproto, ract, rlat, rsc + 1, rfc⟩ := by
      rw [getProxy_updateById db pid _ (applyStats_id true none), hfind]
      simp [hrec]
    unfold markProxySuccess
    rw [h1]
    simp only [hupd]
    cases ract with
    | true =>
      rw [if_pos rfl, hupd]
      rfl
    | false =>
      rw [if_neg (by simp), setActive_getProxy, hupd]
      rfl

/-- C1 witness: the claim's own boundary example on the failure path — a
record with 4 successes and 5 failures receives one failure: counters become
(4, 6), total 10, rate 6/10 > 1/2, and the row is quarantined. -/
theorem C1_witness :
    getProxy (markProxyFailure 5
        ⟨[{ rowA with success_count := 4, fail_count := 5 }], 2⟩ 1) 1 =
      some { rowA with success_count := 4, fail_count := 6, is_active := false } := by
  have h := C1_amended.1 ⟨[{ rowA with success_count := 4, fail_count := 5 }], 2⟩ 1
    { rowA with success_count := 4, fail_count := 5 } (by rfl)
  rw [if_pos ⟨by decide, by decide,
    (half_lt_div ({ rowA with success_count := 4, fail_count := 5 } : Proxy).fail_count.succ
      (({ rowA with success_count := 4, fail_count := 5 } : Proxy).success_count +
        ({ rowA with success_count := 4, fail_count := 5 } : Proxy).fail_count.succ)
      (by decide)).mpr (by decide)⟩] at h
  exact h

/-! ## C10: every record created by `add()` is socks5 -/

theorem buildProxyUrl_socks5 (cfg : ProxyConfig) (hp : cfg.protocol = "socks5") :
    ∃ rest, buildProxyUrl cfg = "socks5://" ++ rest := by
  have hlit : ("socks5" : String) ++ "://" = "socks5://" := rfl
  unfold buildProxyUrl
  rw [hp]
  split
  · refine ⟨cfg.username.getD "" ++ (":" ++ (cfg.password.getD "" ++ ("@" ++
      (cfg.host ++ (":" ++ toString cfg.port))))), ?_⟩
    rw [← hlit]
    simp [String.append_assoc]
  · refine ⟨cfg.host ++ (":" ++ toString cfg.port), ?_⟩
    rw [← hlit]
    simp [String.append_assoc]

theorem addProxyChecked_socks5 (enc : Enc) (db : Db) (s host : String) (port : Int)
    (u pe : Option String) (cfg : ProxyConfig) (db2 : Db)
    (h : addProxyChecked enc db s host port u pe = .ok (cfg, db2)) :
    db2 = db ∨
      ∃ rec, db2.proxies = db.proxies ++ [rec] ∧ rec.protocol = "socks5" ∧
        (proxyToConfig enc rec).protocol = "socks5" ∧
        ∃ rest, buildProxyUrl (proxyToConfig enc rec) = "socks5://" ++ rest := by
  unfold addProxyChecked at h
  split at h
  · exact absurd h (by simp)
  · split at h
    · exact absurd h (by simp)
    · split at h
      case h_1 existing heq =>
        cases h
        exact Or.inl rfl
      case h_2 heq =>
        cases h
        refine Or.inr ⟨(createProxy db host port u pe "socks5" true).1, rfl, rfl, rfl, ?_⟩
        exact buildProxyUrl_socks5 _ rfl

/-- C10: any row `add_proxy` inserts carries protocol `socks5` (the caller has
no way to choose another protocol), its config keeps that protocol, and the
proxy URL the tester builds for it uses the `socks5://` scheme; when no row is
inserted (duplicate `(host, port)`), the store is unchanged. -/
theorem C10_created_socks5 (enc : Enc) (db : Db) (s : String)
    (cfg : ProxyConfig) (db2 : Db) (h : addProxy enc db s = .ok (cfg, db2)) :
    db2 = db ∨
      ∃ rec, db2.proxies = db.proxies ++ [rec] ∧ rec.protocol = "socks5" ∧
        (proxyToConfig enc rec).protocol = "socks5" ∧
        ∃ rest, buildProxyUrl (proxyToConfig enc rec) = "socks5://" ++ rest := by
  unfold addProxy at h
  split at h
  · exact absurd h (by simp)
  · split at h
    · exact absurd h (by simp)
    · split at h
      case isTrue =>
        exact addProxyChecked_socks5 _ _ _ _ _ _ _ _ _ h
      case isFalse =>
        split at h
        · exact absurd h (by simp)
        · exact addProxyChecked_socks5 _ _ _ _ _ _ _ _ _ h

/-- C10 witness: adding a credentialed proxy to the empty store inserts a
socks5 row whose probe URL starts with `socks5://`. -/
theorem C10_witness :
    (⟨[⟨1, "10.0.0.5", 9050, some "user", some "!secret", "socks5", true, none, 0, 0⟩], 2⟩ : Db)
        = emptyDb ∨
      ∃ rec,
        (⟨[⟨1, "10.0.0.5", 9050, some "user", some "!secret", "socks5", true, none, 0, 0⟩], 2⟩ :
            Db).proxies = emptyDb.proxies ++ [rec] ∧
        rec.protocol = "socks5" ∧
        (proxyToConfig vaultEnc rec).protocol = "socks5" ∧
        ∃ rest, buildProxyUrl (proxyToConfig vaultEnc rec) = "socks5://" ++ rest :=
  C10_created_socks5 vaultEnc emptyDb "10.0.0.5:9050:user:secret"
    ⟨some 1, "10.0.0.5", 9050, some "user", some "secret", "socks5", none, true⟩
    ⟨[⟨1, "10.0.0.5", 9050, some "user", some "!secret", "socks5", true, none, 0, 0⟩], 2⟩
    (by rfl)

/-! ## C2: round-trip of add() and handling of the plaintext password -/

/-- C2 counterexample: `add("h:1:u:pw")` persists only the encrypted password
(`"!pw"` under the fixture vault), but the `ProxyConfig` handed back to the
caller carries `password := some "pw"` — the decrypted plaintext is returned,
refuting "`at no point is the plaintext password ... returned to the
caller`". -/
theorem C2_counterexample :
    addProxy vaultEnc emptyDb "h:1:u:pw" =
      .ok (⟨some 1, "h", 1, some "u", some "pw", "socks5", none, true⟩,
           ⟨[⟨1, "h", 1, some "u", some "!pw", "socks5", true, none, 0, 0⟩], 2⟩) := by
  rfl

/-- C2 (amended): for valid 2-field and 4-field inputs on a fresh
`(host, port)`, `add()` round-trips host, port and username, and the stored
row holds only `encrypt(password)` (or no password at all) — but the returned
config's `password` field is `decrypt(encrypt(password))`, i.e. the plaintext
whenever the vault round-trips. -/
theorem C2_amended :
    (∀ (enc : Enc) (db : Db) (s : String) (host : String) (port : Int),
      (pySplitColon (pyStrip s.data)).length = 2 →
      (⟨pyStrip ((pySplitColon (pyStrip s.data)).getD 0 [])⟩ : String) = host →
      host ≠ "" →
      pyInt ⟨pyStrip ((pySplitColon (pyStrip s.data)).getD 1 [])⟩ = some port →
      1 ≤ port → port ≤ 65535 →
      getProxyByHostPort db host port = none →
      ∃ rec db2, addProxy enc db s = .ok (proxyToConfig enc rec, db2) ∧
        db2.proxies = db.proxies ++ [rec] ∧
        rec.host = host ∧ rec.port = port ∧ rec.username = none ∧
        rec.password_encrypted = none ∧
        (proxyToConfig enc rec).password = none) ∧
    (∀ (enc : Enc) (db : Db) (s : String) (host user pw : String) (port : Int),
      (pySplitColon (pyStrip s.data)).length = 4 →
      (⟨pyStrip ((pySplitColon (pyStrip s.data)).getD 0 [])⟩ : String) = host →
      host ≠ "" →
      pyInt ⟨pyStrip ((pySplitColon (pyStrip s.data)).getD 1 [])⟩ = some port →
      1 ≤ port → port ≤ 65535 →
      strOptOfTrim ((pySplitColon (pyStrip s.data)).getD 2 []) = some user →
      strOptOfTrim ((pySplitColon (pyStrip s.data)).getD 3 []) = some pw →
      getProxyByHostPort db host port = none →
      ∃ rec db2, addProxy enc db s = .ok (proxyToConfig enc rec, db2) ∧
        db2.proxies = db.proxies ++ [rec] ∧
        rec.host = host ∧ rec.port = port ∧ rec.username = some user ∧
        rec.password_encrypted = some (enc.encrypt pw) ∧
        (proxyToConfig enc rec).host = host ∧
        (proxyToConfig enc rec).port = port ∧
        (proxyToConfig enc rec).username = some user ∧
        (proxyToConfig enc rec).password = enc.decrypt (enc.encrypt pw)) := by
  constructor
  · intro enc db s host port hlen hh hhost hport hp1 hp2 hlook
    unfold addProxy
    rw [hlen]
    rw [if_neg (by decide)]
    simp only [hport]
    rw [if_neg (by decide), if_neg (by decide)]
    unfold addProxyChecked
    rw [hh, if_neg hhost,
      if_neg (by simp only [Bool.or_eq_true, decide_eq_true_eq]; push_neg; omega)]
    simp only [hlook]
    exact ⟨_, _, rfl, rfl, rfl, rfl, rfl, rfl, rfl⟩
  · intro enc db s host user pw port hlen hh hhost hport hp1 hp2 hu hpw hlook
    unfold addProxy
    rw [hlen]
    rw [if_neg (by decide)]
    simp only [hport]
    rw [if_pos (by decide)]
    rw [hu, hpw]
    unfold addProxyChecked
    rw [hh, if_neg hhost,
      if_neg (by simp only [Bool.or_eq_true, decide_eq_true_eq]; push_neg; omega)]
    simp only [hlook]
    exact ⟨_, _, rfl, rfl, rfl, rfl, rfl, rfl, rfl, rfl, rfl, rfl⟩

/-- C2 witness: the 4-field branch of the round-trip theorem at a concrete
input over the fixture vault. -/
theorem C2_witness :
    ∃ rec db2, addProxy vaultEnc emptyDb "hx:1:u:pw" = .ok (proxyToConfig vaultEnc rec, db2) ∧
      db2.proxies = emptyDb.proxies ++ [rec] ∧
      rec.host = "hx" ∧ rec.port = 1 ∧ rec.username = some "u" ∧
      rec.password_encrypted = some (vaultEnc.encrypt "pw") ∧
      (proxyToConfig vaultEnc rec).host = "hx" ∧
      (proxyToConfig vaultEnc rec).port = 1 ∧
      (proxyToConfig vaultEnc rec).username = some "u" ∧
      (proxyToConfig vaultEnc rec).password = vaultEnc.decrypt (vaultEnc.encrypt "pw") :=
  C2_amended.2 vaultEnc emptyDb "hx:1:u:pw" "hx" "u" "pw" 1 (by rfl) (by rfl) (by decide)
    (by rfl) (by decide) (by decide) (by rfl) (by rfl) (by rfl)

/-! ## C3: which inputs add() accepts -/

/-- C3 counterexample: a 5-field input is accepted by `add_proxy` (the extra
field is silently dropped and the record is created), while the claim
requires `InvalidProxyFormat` for every field count other than 2 and 4. -/
theorem C3_counterexample :
    (pySplitColon (pyStrip ("h:1:u:pw:x".data))).length = 5 ∧
    addProxy vaultEnc emptyDb "h:1:u:pw:x" =
      .ok (⟨some 1, "h", 1, some "u", some "pw", "socks5", none, true⟩,
           ⟨[⟨1, "h", 1, some "u", some "!pw", "socks5", true, none, 0, 0⟩], 2⟩) := by
  exact ⟨by rfl, by rfl⟩

theorem addProxyChecked_isOk (enc : Enc) (db : Db) (s host : String) (port : Int)
    (u pe : Option String) :
    (addProxyChecked enc db s host port u pe).isOk =
      ((!(host == "")) && (decide (1 ≤ port) && decide (port ≤ 65535))) := by
  unfold addProxyChecked
  by_cases hh : host = ""
  · rw [if_pos hh, hh]
    rfl
  · rw [if_neg hh]
    have h1 : (!(host == "")) = true := by simp [hh]
    by_cases hr : (decide (port < 1) || decide (65535 < port)) = true
    · rw [if_pos hr]
      have h2 : (decide (1 ≤ port) && decide (port ≤ 65535)) = false := by
        rcases Bool.or_eq_true_iff.mp hr with h | h <;>
          simp only [decide_eq_true_eq] at h <;>
          simp only [Bool.and_eq_false_iff, decide_eq_false_iff_not] <;> omega
      rw [h1, h2, Bool.true_and]
      rfl
    · rw [if_neg hr]
      have h2 : (decide (1 ≤ port) && decide (port ≤ 65535)) = true := by
        simp only [Bool.or_eq_true, decide_eq_true_eq, not_or] at hr
        simp only [Bool.and_eq_true, decide_eq_true_eq]
        omega
      rw [h1, h2, Bool.true_and]
      cases hlook : getProxyByHostPort db host port <;> simp only [hlook] <;> rfl

/-- C3 (amended): `add()` succeeds exactly when the trimmed input splits into
2 or at least 4 colon-delimited fields (never 3), the second field parses as
an integer in `[1, 65535]`, and the first field is non-empty after stripping;
extra fields beyond the fourth are ignored.  Acceptance does not depend on
the store or the vault, and every rejection raises `InvalidProxyFormat`
without creating a record. -/
theorem C3_amended (enc : Enc) (db : Db) (s : String) :
    (addProxy enc db s).isOk = addAcceptsSpec s := by
  unfold addProxy addAcceptsSpec
  by_cases h2 : (pySplitColon (pyStrip s.data)).length < 2
  · rw [if_pos h2]
    have hA : ((pySplitColon (pyStrip s.data)).length == 2 ||
        decide (4 ≤ (pySplitColon (pyStrip s.data)).length)) = false := by
      simp only [Bool.or_eq_false_iff, beq_eq_false_iff_ne, ne_eq,
        decide_eq_false_iff_not]
      omega
    rw [hA]
    simp only [Bool.false_and]
    rfl
  · rw [if_neg h2]
    cases hpi : pyInt ⟨pyStrip ((pySplitColon (pyStrip s.data)).getD 1 [])⟩ with
    | none =>
      simp only [hpi]
      simp only [Bool.and_false, Bool.false_and]
      rfl
    | some port =>
      simp only [hpi]
      by_cases h4 : 4 ≤ (pySplitColon (pyStrip s.data)).length
      · rw [if_pos h4, addProxyChecked_isOk]
        have hA : ((pySplitColon (pyStrip s.data)).length == 2 ||
            decide (4 ≤ (pySplitColon (pyStrip s.data)).length)) = true := by
          simp [h4]
        rw [hA, Bool.true_and]
        exact Bool.and_comm _ _
      · by_cases h3 : (pySplitColon (pyStrip s.data)).length = 3
        · rw [if_neg h4, if_pos h3]
          have hA : ((pySplitColon (pyStrip s.data)).length == 2 ||
              decide (4 ≤ (pySplitColon (pyStrip s.data)).length)) = false := by
            simp only [Bool.or_eq_false_iff, beq_eq_false_iff_ne, ne_eq,
              decide_eq_false_iff_not]
            omega
          rw [hA]
          simp only [Bool.false_and]
          rfl
        · rw [if_neg h4, if_neg h3, addProxyChecked_isOk]
          have hA : ((pySplitColon (pyStrip s.data)).length == 2 ||
              decide (4 ≤ (pySplitColon (pyStrip s.data)).length)) = true := by
            have : (pySplitColon (pyStrip s.data)).length = 2 := by omega
            simp [this]
          rw [hA, Bool.true_and]
          exact Bool.and_comm _ _

/-- C3 witness: acceptance agrees with the amended predicate on a rejected
3-field input. -/
theorem C3_witness :
    (addProxy vaultEnc emptyDb "h:1:u").isOk = addAcceptsSpec "h:1:u" ∧
      addAcceptsSpec "h:1:u" = false :=
  ⟨C3_amended vaultEnc emptyDb "h:1:u", by rfl⟩

/-! ## C8: idempotence of add() on the (host, port) key -/

/-- C8: when the parsed `(host, port)` already has a stored row, `add()`
returns that row's config (same id, credentials and counters) and leaves the
store completely unchanged, whatever credentials the new input carries. -/
theorem C8_idempotent (enc : Enc) (db : Db) (s : String) (host : String)
    (port : Int) (rec : Proxy)
    (hlen2 : 2 ≤ (pySplitColon (pyStrip s.data)).length)
    (hlen3 : (pySplitColon (pyStrip s.data)).length ≠ 3)
    (hh : (⟨pyStrip ((pySplitColon (pyStrip s.data)).getD 0 [])⟩ : String) = host)
    (hhost : host ≠ "")
    (hport : pyInt ⟨pyStrip ((pySplitColon (pyStrip s.data)).getD 1 [])⟩ = some port)
    (hp1 : 1 ≤ port) (hp2 : port ≤ 65535)
    (hlook : getProxyByHostPort db host port = some rec) :
    addProxy enc db s = .ok (proxyToConfig enc rec, db) := by
  unfold addProxy
  rw [if_neg (by omega)]
  simp only [hport]
  by_cases h4 : 4 ≤ (pySplitColon (pyStrip s.data)).length
  · rw [if_pos h4]
    unfold addProxyChecked
    rw [hh, if_neg hhost,
      if_neg (by simp only [Bool.or_eq_true, decide_eq_true_eq]; push_neg; omega)]
    simp only [hlook]
  · rw [if_neg h4, if_neg hlen3]
    unfold addProxyChecked
    rw [hh, if_neg hhost,
      if_neg (by simp only [Bool.or_eq_true, decide_eq_true_eq]; push_neg; omega)]
    simp only [hlook]

/-- C8 witness: re-adding `(h, 1)` with different credentials returns the
stored row (id 1, original credentials and counters) and the store is
unchanged. -/
theorem C8_witness :
    addProxy vaultEnc ⟨[rec8], 2⟩ "h:1:other:creds" =
      .ok (proxyToConfig vaultEnc rec8, ⟨[rec8], 2⟩) :=
  C8_idempotent vaultEnc ⟨[rec8], 2⟩ "h:1:other:creds" "h" 1 rec8 (by decide) (by decide)
    (by rfl) (by decide) (by rfl) (by decide) (by decide) (by rfl)

/-! ## C5: endpoint fallback behaviour of one probe -/

/-- C5 counterexample: the first default endpoint answers HTTP 403 — a
non-2xx status — yet the probe does not stop there: it advances to the second
endpoint and reports overall success from it, refuting "a non-2xx HTTP status
ends the probe as a definitive failure with no attempt on any later
endpoint". -/
theorem C5_counterexample :
    cexEnv.attempt (TEST_ENDPOINTS.getD 0 "") = .resp 403 40 true ∧
    testProxy cexEnv cfg7 =
      { proxy_id := 7, success := true, latency_ms := some 50,
        error_message := none, endpoint := "https://api.ipify.org?format=json" } := by
  exact ⟨by rfl, by rfl⟩

theorem testProxyEndpoint_not_success (env : ProbeEnv) (cfg : ProxyConfig) (e : String)
    (h : ∀ l, env.attempt e ≠ .resp 200 l true) :
    ∀ r, testProxyEndpoint env cfg e = .ok r → r.success = false := by
  intro r hr
  unfold testProxyEndpoint at hr
  cases hA : env.attempt e with
  | resp status lat b =>
    simp only [hA] at hr
    split at hr
    case isTrue h200 =>
      split at hr
      case isTrue hb =>
        rw [h200, hb] at hA
        exact absurd hA (h lat)
      case isFalse hb =>
        cases hr
        rfl
    case isFalse h200 =>
      cases hr
      rfl
  | timeout =>
    simp only [hA] at hr
    exact Except.noConfusion hr
  | connError m =>
    simp only [hA] at hr
    exact Except.noConfusion hr
  | clientError m =>
    simp only [hA] at hr
    cases hr
    rfl
  | unexpected m =>
    simp only [hA] at hr
    cases hr
    rfl

/-- C5 (amended): the probe advances from an endpoint to the next on every
non-success outcome — network-layer errors, client errors, a failing body
read, and equally a non-2xx HTTP status (which is not definitive); the first
endpoint answering HTTP 200 with a readable body ends the probe as a success
whose latency is the elapsed time of that attempt. -/
theorem C5_amended (env : ProbeEnv) (cfg : ProxyConfig) (e : String) (es : List String) :
    ((∀ l, env.attempt e ≠ .resp 200 l true) →
      testProxyLoop env cfg (e :: es) = testProxyLoop env cfg es) ∧
    (∀ l, env.attempt e = .resp 200 l true →
      testProxyLoop env cfg (e :: es) =
        some { proxy_id := cfg.id.getD 0, success := true, latency_ms := some l,
               error_message := none, endpoint := e }) := by
  constructor
  · intro h
    rw [testProxyLoop]
    cases hE : testProxyEndpoint env cfg e with
    | ok r =>
      simp only [hE]
      rw [testProxyEndpoint_not_success env cfg e h r hE]
      simp
    | error pe =>
      simp only [hE]
  · intro l hA
    rw [testProxyLoop]
    unfold testProxyEndpoint
    rw [hA]
    rfl

/-- C5 witness: on the fixture network, the 403 endpoint is skipped and the
200 endpoint ends the probe with its own latency. -/
theorem C5_witness :
    testProxyLoop cexEnv cfg7
        ("http://httpbin.org/ip" :: ["https://api.ipify.org?format=json"]) =
      testProxyLoop cexEnv cfg7 ["https://api.ipify.org?format=json"] ∧
    testProxyLoop cexEnv cfg7 ("https://api.ipify.org?format=json" :: []) =
      some { proxy_id := 7, success := true, latency_ms := some 50,
             error_message := none, endpoint := "https://api.ipify.org?format=json" } :=
  ⟨(C5_amended cexEnv cfg7 "http://httpbin.org/ip" ["https://api.ipify.org?format=json"]).1
      (fun l h => by simp [cexEnv] at h),
   (C5_amended cexEnv cfg7 "https://api.ipify.org?format=json" []).2 50 (by rfl)⟩

/-! ## C9: probe errors never escape or abort the sweep -/

theorem testProxyEndpoint_pid (env : ProbeEnv) (cfg : ProxyConfig) :
    ∀ (e : String) (r : ProxyTestResult), testProxyEndpoint env cfg e = .ok r →
      r.proxy_id = cfg.id.getD 0 := by
  intro e r h
  unfold testProxyEndpoint at h
  cases hA : env.attempt e with
  | resp status lat b =>
    simp only [hA] at h
    split at h
    · split at h
      · cases h
        rfl
      · cases h
        rfl
    · cases h
      rfl
  | timeout =>
    simp only [hA] at h
    exact Except.noConfusion h
  | connError m =>
    simp only [hA] at h
    exact Except.noConfusion h
  | clientError m =>
    simp only [hA] at h
    cases h
    rfl
  | unexpected m =>
    simp only [hA] at h
    cases h
    rfl

theorem testProxyLoop_success (env : ProbeEnv) (cfg : ProxyConfig) :
    ∀ (es : List String) (r : ProxyTestResult),
      testProxyLoop env cfg es = some r → r.success = true := by
  intro es
  induction es with
  | nil =>
    intro r h
    exact Option.noConfusion h
  | cons e rest ih =>
    intro r h
    unfold testProxyLoop at h
    cases hE : testProxyEndpoint env cfg e with
    | ok r0 =>
      simp only [hE] at h
      by_cases hs : r0.success = true
      · rw [if_pos hs] at h
        cases h
        exact hs
      · rw [if_neg hs] at h
        exact ih r h
    | error pe =>
      simp only [hE] at h
      exact ih r h

theorem testProxyLoop_pid (env : ProbeEnv) (cfg : ProxyConfig) :
    ∀ (es : List String) (r : ProxyTestResult),
      testProxyLoop env cfg es = some r → r.proxy_id = cfg.id.getD 0 := by
  intro es
  induction es with
  | nil =>
    intro r h
    exact Option.noConfusion h
  | cons e rest ih =>
    intro r h
    unfold testProxyLoop at h
    cases hE : testProxyEndpoint env cfg e with
    | ok r0 =>
      simp only [hE] at h
      by_cases hs : r0.success = true
      · rw [if_pos hs] at h
        cases h
        exact testProxyEndpoint_pid env cfg e _ hE
      · rw [if_neg hs] at h
        exact ih r h
    | error pe =>
      simp only [hE] at h
      exact ih r h

theorem testProxy_pid (env : ProbeEnv) (cfg : ProxyConfig) :
    (testProxy env cfg).proxy_id = cfg.id.getD 0 := by
  unfold testProxy
  cases hl : testProxyLoop env cfg TEST_ENDPOINTS with
  | some r =>
    simp only [hl]
    exact testProxyLoop_pid env cfg TEST_ENDPOINTS r hl
  | none =>
    simp only [hl]

/-- C9: in a sweep, every config yields exactly one result, each result is
attributable to its config's id, and every failed probe carries an error
message — probe failures become failed results instead of escaping (the
embedded `testProxy` is a total function into results: the per-endpoint typed
errors are caught inside it) and never abort the sibling probes. -/
theorem C9_probe_isolation (env : ProbeEnv) (cfgs : List ProxyConfig) :
    (testMultipleProxies env cfgs).length = cfgs.length ∧
    (∀ r ∈ testMultipleProxies env cfgs, r.success = false →
      ∃ m, r.error_message = some m) ∧
    (∀ i, i < cfgs.length →
      ((testMultipleProxies env cfgs).getD i dummyResult).proxy_id =
        (cfgs.getD i dummyConfig).id.getD 0) := by
  refine ⟨by simp [testMultipleProxies], ?_, ?_⟩
  · intro r hr hfail
    obtain ⟨c, hc, rfl⟩ := List.mem_map.mp hr
    cases hl : testProxyLoop env c TEST_ENDPOINTS with
    | some r0 =>
      have hsucc : (testProxy env c).success = true := by
        unfold testProxy
        simp only [hl]
        exact testProxyLoop_success env c TEST_ENDPOINTS r0 hl
      rw [hfail] at hsucc
      exact Bool.noConfusion hsucc
    | none =>
      refine ⟨"All test endpoints failed for proxy " ++ c.host ++ ":" ++ toString c.port, ?_⟩
      unfold testProxy
      simp only [hl]
  · intro i hi
    unfold testMultipleProxies
    rw [List.getD_eq_getElem?_getD, List.getElem?_map, List.getD_eq_getElem?_getD,
      List.getElem?_eq_getElem hi]
    simp only [Option.map_some', Option.getD_some]
    exact testProxy_pid env cfgs[i]

/-- C9 witness: on a network where every endpoint fails (timeout, connection
error, client error), the probe still returns a failed result with an error
message. -/
theorem C9_witness :
    ∃ m, (testProxy failEnv cfg7).error_message = some m :=
  (C9_probe_isolation failEnv [cfg7]).2.1 (testProxy failEnv cfg7) (by decide) (by decide)

/-! ## C6: rotation order and round-robin fairness -/

theorem perfLE_half_full : perfLE rowHalfRate rowFullRate = false := by
  have h1 : rateKey rowHalfRate = some (((1 : Nat) : ℚ) / ((1 + 1 : Nat) : ℚ)) := rfl
  have h2 : rateKey rowFullRate = some (((1 : Nat) : ℚ) / ((1 + 0 : Nat) : ℚ)) := rfl
  have hy : ¬(((1 : Nat) : ℚ) / ((1 + 0 : Nat) : ℚ) < ((1 : Nat) : ℚ) / ((1 + 1 : Nat) : ℚ)) := by
    push_cast
    norm_num
  have hx : ((1 : Nat) : ℚ) / ((1 + 1 : Nat) : ℚ) < ((1 : Nat) : ℚ) / ((1 + 0 : Nat) : ℚ) := by
    push_cast
    norm_num
  unfold perfLE
  rw [h1, h2]
  show (if ((1 : Nat) : ℚ) / ((1 + 0 : Nat) : ℚ) < ((1 : Nat) : ℚ) / ((1 + 1 : Nat) : ℚ)
        then true
        else if ((1 : Nat) : ℚ) / ((1 + 1 : Nat) : ℚ) < ((1 : Nat) : ℚ) / ((1 + 0 : Nat) : ℚ)
        then false
        else latLE rowHalfRate rowFullRate) = false
  rw [if_neg hy, if_pos hx]

theorem activeTwoRows : getActiveProxies stTwoRows.db 100 = [rowFullRate, rowHalfRate] := by
  unfold getActiveProxies
  rw [show stTwoRows.db.proxies.filter (fun r => r.is_active) = [rowHalfRate, rowFullRate]
    from rfl]
  unfold sortPerf
  rw [show ([rowHalfRate, rowFullRate].foldr insertPerf []) =
    insertPerf rowHalfRate [rowFullRate] from rfl]
  rw [show insertPerf rowHalfRate [rowFullRate] =
    if perfLE rowHalfRate rowFullRate then rowHalfRate :: [rowFullRate]
    else rowFullRate :: insertPerf rowHalfRate [] from rfl]
  rw [perfLE_half_full]
  rfl

/-- C6 counterexample: with two active rows — id 1 at success rate 1/2 and
id 2 at success rate 1 — the first `next()` call returns the row with id 2
(`get_active_proxies` orders by success rate descending, then latency), while
the claim's id-ascending order at cursor 0 would select id 1. -/
theorem C6_counterexample :
    (getNextProxy vaultEnc stTwoRows).1.bind (fun cfg => cfg.id) = some 2 ∧
    nextActiveIdSpec stTwoRows = some 1 ∧
    (getNextProxy vaultEnc stTwoRows).1.bind (fun cfg => cfg.id) ≠
      nextActiveIdSpec stTwoRows := by
  have h1 : (getNextProxy vaultEnc stTwoRows).1.bind (fun cfg => cfg.id) = some 2 := by
    unfold getNextProxy
    rw [activeTwoRows]
    rfl
  have h2 : nextActiveIdSpec stTwoRows = some 1 := by rfl
  exact ⟨h1, h2, by rw [h1, h2]; decide⟩

theorem getNextProxy_step (enc : Enc) (db : Db) (c : Nat)
    (h : getActiveProxies db 100 ≠ []) :
    getNextProxy enc ⟨db, c⟩ =
      (some (proxyToConfig enc ((getActiveProxies db 100).getD
         (c % (getActiveProxies db 100).length) dummyProxy)),
       ⟨db, (c + 1) % (getActiveProxies db 100).length⟩) := by
  unfold getNextProxy
  rw [if_neg (by simpa [List.isEmpty_iff] using h)]

theorem iterateNext_trace (enc : Enc) (db : Db) (h : getActiveProxies db 100 ≠ []) :
    ∀ (N c : Nat), iterateNext enc ⟨db, c⟩ N =
      (List.range N).map (fun i =>
        some (proxyToConfig enc ((getActiveProxies db 100).getD
          ((c + i) % (getActiveProxies db 100).length) dummyProxy))) := by
  intro N
  induction N with
  | zero =>
    intro c
    rfl
  | succ n ih =>
    intro c
    rw [show iterateNext enc ⟨db, c⟩ (n + 1) =
      (getNextProxy enc ⟨db, c⟩).1 :: iterateNext enc (getNextProxy enc ⟨db, c⟩).2 n from rfl]
    rw [getNextProxy_step enc db c h]
    dsimp only
    rw [ih ((c + 1) % (getActiveProxies db 100).length)]
    rw [List.range_succ_eq_map, List.map_cons, List.map_map]
    congr 1
    apply List.map_congr_left
    intro i hi
    show some (proxyToConfig enc ((getActiveProxies db 100).getD
        (((c + 1) % (getActiveProxies db 100).length + i) %
          (getActiveProxies db 100).length) dummyProxy)) = _
    have hidx : ((c + 1) % (getActiveProxies db 100).length + i) %
        (getActiveProxies db 100).length =
        (c + Nat.succ i) % (getActiveProxies db 100).length := by
      rw [Nat.mod_add_mod]
      congr 1
      omega
    rw [hidx]
    rfl

theorem exists_hit (k c j : Nat) (hk : 0 < k) (hj : j < k) :
    ∃ i, i < k ∧ (c + i) % k = j := by
  have hr : c % k < k := Nat.mod_lt _ hk
  have hdm : k * (c / k) + c % k = c := Nat.div_add_mod c k
  rcases le_or_lt (c % k) j with hle | hlt
  · refine ⟨j - c % k, by omega, ?_⟩
    rw [show c + (j - c % k) = k * (c / k) + j by omega, Nat.mul_add_mod]
    exact Nat.mod_eq_of_lt hj
  · refine ⟨j + k - c % k, by omega, ?_⟩
    have hmul : k * (c / k + 1) = k * (c / k) + k := by ring
    rw [show c + (j + k - c % k) = k * (c / k + 1) + j by omega, Nat.mul_add_mod]
    exact Nat.mod_eq_of_lt hj

theorem count_range_cycles {α : Type} [BEq α] [LawfulBEq α] (g : Nat → α) (k j : Nat)
    (hk : 0 < k) (hj : j < k) :
    ∀ (q c : Nat),
      q ≤ ((List.range (k * q)).map (fun i => g ((c + i) % k))).count (g j) := by
  intro q
  induction q with
  | zero =>
    intro c
    simp
  | succ n ih =>
    intro c
    rw [show k * (n + 1) = k + k * n by ring, List.range_add, List.map_append,
      List.count_append]
    rcases exists_hit k c j hk hj with ⟨i, hik, hij⟩
    have hmem : g j ∈ (List.range k).map (fun i => g ((c + i) % k)) :=
      List.mem_map.mpr ⟨i, List.mem_range.mpr hik, by rw [hij]⟩
    have h1 : 0 < ((List.range k).map (fun i => g ((c + i) % k))).count (g j) :=
      List.count_pos_iff.mpr hmem
    have h2 : n ≤ (((List.range (k * n)).map (fun x => k + x)).map
        (fun i => g ((c + i) % k))).count (g j) := by
      rw [List.map_map]
      have hcongr : ∀ x ∈ List.range (k * n),
          ((fun i => g ((c + i) % k)) ∘ (fun x => k + x)) x = g ((c + x) % k) := by
        intro x hx
        show g ((c + (k + x)) % k) = g ((c + x) % k)
        congr 1
        rw [show c + (k + x) = k + (c + x) by omega, Nat.add_mod_left]
      rw [List.map_congr_left hcongr]
      exact ih c
    omega

/-- C6 (amended): `next()` reads the active rows ordered by success rate
descending then latency ascending (not id ascending), limited to 100, returns
the row at `cursor mod active_count` and stores `(cursor+1) mod active_count`;
consequently, over a fixed pool whose listed active set has `k > 0` rows,
`N` consecutive `next()` calls return each listed row at least `⌊N/k⌋`
times. -/
theorem C6_amended (enc : Enc) (db : Db) (c N j : Nat)
    (hk : 0 < (getActiveProxies db 100).length)
    (hj : j < (getActiveProxies db 100).length) :
    N / (getActiveProxies db 100).length ≤
      (iterateNext enc ⟨db, c⟩ N).count
        (some (proxyToConfig enc ((getActiveProxies db 100).getD j dummyProxy))) := by
  have hne : getActiveProxies db 100 ≠ [] := List.length_pos.mp hk
  rw [iterateNext_trace enc db hne N c]
  have hcyc := count_range_cycles
    (fun m => some (proxyToConfig enc ((getActiveProxies db 100).getD m dummyProxy)))
    (getActiveProxies db 100).length j hk hj
    (N / (getActiveProxies db 100).length) c
  have h0 : N = (getActiveProxies db 100).length *
      (N / (getActiveProxies db 100).length) + N % (getActiveProxies db 100).length :=
    (Nat.div_add_mod N (getActiveProxies db 100).length).symm
  have hcyc2 : N / (getActiveProxies db 100).length ≤
      ((List.range ((getActiveProxies db 100).length *
          (N / (getActiveProxies db 100).length))).map
        (fun i => some (proxyToConfig enc ((getActiveProxies db 100).getD
          ((c + i) % (getActiveProxies db 100).length) dummyProxy)))).count
        (some (proxyToConfig enc ((getActiveProxies db 100).getD j dummyProxy))) := hcyc
  refine le_trans hcyc2 ?_
  conv_rhs => rw [h0]
  rw [List.range_add, List.map_append, List.count_append]
  apply Nat.le_add_right

/-- C6 witness: a single-row active pool (`k = 1`): three `next()` calls
return that row at least three times. -/
theorem C6_witness :
    3 / (getActiveProxies ⟨[rowA], 2⟩ 100).length ≤
      (iterateNext vaultEnc ⟨⟨[rowA], 2⟩, 0⟩ 3).count
        (some (proxyToConfig vaultEnc ((getActiveProxies ⟨[rowA], 2⟩ 100).getD 0 dummyProxy))) :=
  C6_amended vaultEnc ⟨[rowA], 2⟩ 0 3 0 (by decide) (by decide)

end PM
